import Mathlib

/-
Verification of the AGILE cost-function module (src/cobbi/core/cost_function.py).

Shallow embedding conventions:
  * A 2-D torch tensor over the glacier grid is embedded as a total function
    `Grid := ℕ → ℕ → ℚ` together with explicit row/column counts `r c : ℕ`
    passed to every reduction; only the entries with `i < r`, `j < c` are ever
    read by a reduction, so the values outside the advertised shape are inert.
    Float arithmetic is embedded as exact rational arithmetic.
  * torch slicing `x[:, :-2]`, `x[:, 2:]`, `x[:, 1:-1]` (and the row variants)
    becomes an index shift together with a reduced summation bound.
  * The external forward simulator `run_forward_core` (module
    cobbi.core.dynamics, outside this file's source) is an opaque parameter
    `run_forward`, and the reverse-mode differentials that torch.autograd
    computes for the library-differentiated cost terms are an opaque parameter
    `autodiff`; the lambda gating and scaling structure that the source itself
    contains is modelled explicitly (see `termGrad`).
  * Python exceptions are embedded with `Except PyError`.  The source spells
    the tensor method `unsqeeze` at cost_function.py lines 68 and 141; torch
    tensors expose `unsqueeze` but no attribute of that misspelled name, so the
    attribute lookup raises AttributeError.  Attribute lookup is embedded by
    `tensorGetattr` over the list of method names the source relies on.
  * numpy conversion results are embedded as `NpObj` / `NpScalar` / `NpVec`
    values carrying an explicit dtype tag; numpy arrays carry no autograd
    state, matching the `.detach().numpy()` conversions in the source.
-/

/-- A 2-D tensor of rationals, indexed (row, column). -/
abbrev Grid := ℕ → ℕ → ℚ

/-- Sum of the entries of `F` over the shape `r × c` (torch `.sum()`). -/
def gsum (r c : ℕ) (F : Grid) : ℚ :=
  ∑ i ∈ Finset.range r, ∑ j ∈ Finset.range c, F i j

/-- Pointwise difference of two grids. -/
def gsub (A B : Grid) : Grid := fun i j => A i j - B i j

/-- Python exception values reachable in this module. -/
inductive PyError
  | attributeError (attr : String)
deriving DecidableEq

/-- Method names looked up on torch float tensors by cost_function.py.
torch exposes `unsqueeze`; there is no attribute spelled `unsqeeze`. -/
def floatTensorAttrs : List String :=
  ["unsqueeze", "pow", "sum", "numel", "reshape", "detach", "numpy", "backward", "grad"]

/-- Python attribute lookup on a torch float tensor: a name outside the
attribute table raises AttributeError. -/
def tensorGetattr (attr : String) : Except PyError Unit :=
  if attr ∈ floatTensorAttrs then Except.ok () else Except.error (PyError.attributeError attr)

/-- Value of the inner mask computed at cost_function.py lines 66-68 / 139-141
once the method lookup has succeeded: `torch.conv2d` of the ice mask with the
3×3 all-ones filter equals 9 exactly on the cells whose full 3×3 neighbourhood
is ice, and the result is assigned into the `[1:-1, 1:-1]` interior of a zero
tensor of the mask's shape. -/
def inner_mask_vals (r c : ℕ) (mask : Grid) : Grid := fun i j =>
  if 1 ≤ i ∧ i + 1 < r ∧ 1 ≤ j ∧ j + 1 < c ∧
      (∑ a ∈ Finset.range 3, ∑ b ∈ Finset.range 3, mask (i - 1 + a) (j - 1 + b)) = 9
  then 1 else 0

/-- The inner-mask derivation as the source actually executes it
(lines 66-68 and 139-141): the first chained call is spelled
`mask.unsqeeze(0)`, so Python raises AttributeError during the attribute
lookup, before `conv2d` ever runs; on a (hypothetical) successful lookup the
value would be `inner_mask_vals`. -/
def derive_inner_mask (r c : ℕ) (mask : Grid) : Except PyError Grid :=
  match tensorGetattr "unsqeeze" with
  | Except.error e => Except.error e
  | Except.ok _ => Except.ok (inner_mask_vals r c mask)

/-- numpy dtype tags relevant to this module: torch default float maps to
float32 under `.numpy()`, and `.astype(np.float64)` retags to float64. -/
inductive Dtype
  | float32
  | float64
deriving DecidableEq

/-- Payload of a numpy value: 0-d scalar, 1-d array, or 2-d array. -/
inductive NpVal
  | scalar (v : ℚ)
  | arr1 (v : List ℚ)
  | arr2 (v : List (List ℚ))
deriving DecidableEq

/-- A numpy object with its dtype; numpy arrays track no gradients. -/
structure NpObj where
  dtype : Dtype
  val : NpVal
deriving DecidableEq

/-- The scalar cost as handed to scipy: a 0-d numpy value with a dtype. -/
structure NpScalar where
  dtype : Dtype
  val : ℚ
deriving DecidableEq

/-- The gradient as handed to scipy: a 1-d numpy array with a dtype. -/
structure NpVec where
  dtype : Dtype
  data : List ℚ
deriving DecidableEq

/-- The data logger's five append-only sequences (cost_function.py 157-163). -/
structure DataLogger where
  c_terms : List NpObj
  costs : List NpObj
  grads : List NpObj
  beds : List NpObj
  surfs : List NpObj
deriving DecidableEq

/-- numpy `b.reshape(ref_surf.shape)` for a flat vector `b`, row-major with
`c` columns (cost_function.py line 130). -/
def reshape_to_grid (b : List ℚ) (c : ℕ) : Grid := fun i j => b.getD (i * c + j) 0

/-- Row-major flattening of an `r × c` grid into a 1-d list
(`g.reshape(b.shape)` at line 154, with `b` of size `r * c`). -/
def flatten_grid (r c : ℕ) (G : Grid) : List ℚ :=
  (List.range (r * c)).map (fun n => G (n / c) (n % c))

/-- An `r × c` grid as a nested list (the `.detach().numpy()` snapshot of a
2-d tensor). -/
def grid_to_list (r c : ℕ) (G : Grid) : List (List ℚ) :=
  (List.range r).map (fun i => (List.range c).map (fun j => G i j))

/-- Line 199: `dit_dx = (it[:, :-2] - it[:, 2:]) / (2. * dx)`. -/
def dit_dx (it : Grid) (dx : ℚ) : Grid := fun i j => (it i j - it i (j + 2)) / (2 * dx)

/-- Line 200: `dit_dy = (it[:-2, :] - it[2:, :]) / (2. * dx)`. -/
def dit_dy (it : Grid) (dx : ℚ) : Grid := fun i j => (it i j - it (i + 2) j) / (2 * dx)

/-- Line 208: `db_dx = (guessed_bed[:, :-2] - guessed_bed[:, 2:]) / dx`
(note: divided by `dx`, not `2 * dx`). -/
def db_dx (bed : Grid) (dx : ℚ) : Grid := fun i j => (bed i j - bed i (j + 2)) / dx

/-- Line 209: `db_dy = (guessed_bed[:-2, :] - guessed_bed[2:, :]) / dx`. -/
def db_dy (bed : Grid) (dx : ℚ) : Grid := fun i j => (bed i j - bed (i + 2) j) / dx

/-- Line 201: `dit_dx * model_inner_mask[:, 1:-1]`. -/
def masked_dit_dx (it M : Grid) (dx : ℚ) : Grid := fun i j => dit_dx it dx i j * M i (j + 1)

/-- Line 202: `dit_dy * model_inner_mask[1:-1, :]`. -/
def masked_dit_dy (it M : Grid) (dx : ℚ) : Grid := fun i j => dit_dy it dx i j * M (i + 1) j

/-- Line 210: `db_dx * model_inner_mask[:, 1:-1]`. -/
def masked_db_dx (bed M : Grid) (dx : ℚ) : Grid := fun i j => db_dx bed dx i j * M i (j + 1)

/-- Line 211: `db_dy * model_inner_mask[1:-1, :]`. -/
def masked_db_dy (bed M : Grid) (dx : ℚ) : Grid := fun i j => db_dy bed dx i j * M (i + 1) j

/-- The masked first-derivative operator exactly as spec section 4.2 words it:
central difference `(F[-shift] - F[+shift]) / (2 * dx)` along the column axis,
multiplied by the inner mask's interior slice along that axis.  Written from
the spec's words, to be compared with the operators the source implements. -/
def spec_first_deriv_x (F M : Grid) (dx : ℚ) : Grid :=
  fun i j => (F i j - F i (j + 2)) / (2 * dx) * M i (j + 1)

/-- The spec section 4.2 masked first-derivative operator along the row axis. -/
def spec_first_deriv_y (F M : Grid) (dx : ℚ) : Grid :=
  fun i j => (F i j - F (i + 2) j) / (2 * dx) * M (i + 1) j

/-- Column-axis curvature `(F[:, :-2] + F[:, 2:] - 2 * F[:, 1:-1]) / dx ** 2`
(lines 232, 241, 251, 261). -/
def curv_x (F : Grid) (dx : ℚ) : Grid :=
  fun i j => (F i j + F i (j + 2) - 2 * F i (j + 1)) / dx ^ 2

/-- Row-axis curvature `(F[:-2, :] + F[2:, :] - 2 * F[1:-1, :]) / dx ** 2`. -/
def curv_y (F : Grid) (dx : ℚ) : Grid :=
  fun i j => (F i j + F (i + 2) j - 2 * F (i + 1) j) / dx ^ 2

/-- The shared curvature sum-of-squares pattern of terms 4-7: mask each axis's
curvature by the matching interior slice of `M`, square, and sum both axes. -/
def curv_sq_sum (r c : ℕ) (F M : Grid) (dx : ℚ) : ℚ :=
  gsum r (c - 2) (fun i j => (curv_x F dx i j * M i (j + 1)) ^ 2)
    + gsum (r - 2) c (fun i j => (curv_y F dx i j * M (i + 1) j) ^ 2)

/-- The five tensors `ctx.save_for_backward` stores in
`LocalMeanSquaredDifference.forward` (line 283), in argument order. -/
structure LMSDSaved where
  modelled_surf : Grid
  surface_to_match : Grid
  ice_region : Grid
  ice_mask : Grid
  bed : Grid

/-- Lines 282-285: forward value of the custom autograd function,
`(modelled_surf - surface_to_match).pow(2).sum() / ice_region.sum()`
(the `.type(dtype=torch.float)` cast is a numeric no-op here). -/
def LocalMeanSquaredDifference.forward (r c : ℕ) (s : LMSDSaved) : ℚ :=
  gsum r c (fun i j => (s.modelled_surf i j - s.surface_to_match i j) ^ 2)
    / gsum r c s.ice_region

/-- Lines 287-291: the hand-written backward rule.  It ignores `grad_output`
and returns the 5-tuple `(None, None, None, None, grad_modelled_surf)` with
`grad_modelled_surf = (modelled_surf - observed_surf) * ice_mask`.  torch maps
the tuple positionally onto forward's five inputs, so position 1 is the
gradient slot of `modelled_surf`, ..., position 5 the gradient slot of `bed`. -/
def LocalMeanSquaredDifference.backward (s : LMSDSaved) (grad_output : ℚ) :
    Option Grid × Option Grid × Option Grid × Option Grid × Option Grid :=
  (none, none, none, none,
    some (fun i j => (s.modelled_surf i j - s.surface_to_match i j) * s.ice_mask i j))

/-- Lines 168-273: the 10-slot cost breakdown (`cost = torch.zeros(10)`), with
slot 9 (`cost[-1]`) always assigned and slots 0-8 assigned only under the
guard `if lambdas[i] != 0`.  Indices `k ≥ 10` return the padding value 0. -/
def get_costs (r c : ℕ) (lambdas : ℕ → ℚ)
    (ref_surf ref_ice_mask ref_inner_mask guessed_bed model_surf model_ice_mask
      model_inner_mask : Grid) (dx : ℚ) : ℕ → ℚ :=
  let n_inner_mask := gsum r c model_inner_mask
  let n_ice_mask := gsum r c ref_ice_mask
  let n_grid : ℚ := (r : ℚ) * (c : ℚ)
  let it := gsub model_surf guessed_bed
  fun k =>
    if k = 9 then
      gsum r c (fun i j => (ref_surf i j - model_surf i j) ^ 2) / gsum r c ref_ice_mask
    else if k = 0 then
      if lambdas 0 ≠ 0 then
        lambdas 0 * ((gsum r (c - 2) (fun i j => masked_dit_dx it model_inner_mask dx i j ^ 2)
          + gsum (r - 2) c (fun i j => masked_dit_dy it model_inner_mask dx i j ^ 2))
            / n_inner_mask)
      else 0
    else if k = 1 then
      if lambdas 1 ≠ 0 then
        lambdas 1 * ((gsum r (c - 2) (fun i j => masked_db_dx guessed_bed model_inner_mask dx i j ^ 2)
          + gsum (r - 2) c (fun i j => masked_db_dy guessed_bed model_inner_mask dx i j ^ 2))
            / n_inner_mask)
      else 0
    else if k = 2 then
      if lambdas 2 ≠ 0 then
        lambdas 2 * (gsum r c
            (fun i j => ((model_surf i j - guessed_bed i j) * (1 - ref_ice_mask i j)) ^ 2)
          / (n_grid - n_ice_mask))
      else 0
    else if k = 3 then
      if lambdas 3 ≠ 0 then
        lambdas 3 * (gsum r c
            (fun i j => ((ref_surf i j - guessed_bed i j) * (1 - ref_ice_mask i j)) ^ 2)
          / (n_grid - n_ice_mask))
      else 0
    else if k = 4 then
      if lambdas 4 ≠ 0 then
        lambdas 4 * (curv_sq_sum r c it model_inner_mask dx / n_inner_mask)
      else 0
    else if k = 5 then
      if lambdas 5 ≠ 0 then
        lambdas 5 * (curv_sq_sum r c guessed_bed model_inner_mask dx / (2 * n_inner_mask))
      else 0
    else if k = 6 then
      if lambdas 6 ≠ 0 then
        lambdas 6 * (curv_sq_sum r c guessed_bed (gsub ref_ice_mask model_inner_mask) dx
          / (2 * gsum (r - 2) (c - 2)
              (fun i j => gsub ref_ice_mask model_inner_mask (i + 1) (j + 1))))
      else 0
    else if k = 7 then
      if lambdas 7 ≠ 0 then
        lambdas 7 * (curv_sq_sum r c model_surf model_inner_mask dx / n_inner_mask)
      else 0
    else if k = 8 then
      if lambdas 8 ≠ 0 then
        lambdas 8 * LocalMeanSquaredDifference.forward r c
          ⟨model_surf, ref_surf, ref_ice_mask, ref_ice_mask, guessed_bed⟩
      else 0
    else 0

/-- The tensors a cost term's computational graph can reach, bundled as the
argument of the opaque autodiff differentials. -/
structure TermDiffInput where
  guessed_bed : Grid
  model_surf : Grid
  model_inner_mask : Grid
  ref_surf : Grid
  ref_ice_mask : Grid
  dx : ℚ

/-- Contribution of breakdown slot `i` to `guessed_bed.grad` under
`c.backward()` (line 150).  The structure that lives in the source is modelled
exactly: a slot whose guard `lambdas[i] != 0` failed was never built into the
graph, so it contributes nothing; slot 9 is always built; slot 8's subgraph is
`lambdas[8] * LocalMeanSquaredDifference(...)`, whose custom backward receives
`grad_output = lambdas 8` from the product node, ignores it, and injects
`(model_surf - ref_surf) * ref_ice_mask` into the gradient slot of its fifth
argument `guessed_bed` (lines 268-271 give the call-site arguments).  For the
remaining library-differentiated slots the differential of the
lambda-independent term body is the opaque `autodiff inp i`, scaled by
`lambdas i` as the product node prescribes. -/
def termGrad (autodiff : TermDiffInput → ℕ → Grid) (lambdas : ℕ → ℚ)
    (inp : TermDiffInput) : ℕ → Grid := fun i =>
  if i = 9 then autodiff inp 9
  else if lambdas i = 0 then fun _ _ => 0
  else if i = 8 then
    match (LocalMeanSquaredDifference.backward
        ⟨inp.model_surf, inp.ref_surf, inp.ref_ice_mask, inp.ref_ice_mask, inp.guessed_bed⟩
        (lambdas 8)).2.2.2.2 with
    | some g => g
    | none => fun _ _ => 0
  else fun a b => lambdas i * autodiff inp i a b

/-- `guessed_bed.grad` after `c.backward()`: the sum of the ten slots'
contributions. -/
def bed_grad (autodiff : TermDiffInput → ℕ → Grid) (lambdas : ℕ → ℚ)
    (inp : TermDiffInput) : Grid :=
  fun a b => ∑ i ∈ Finset.range 10, termGrad autodiff lambdas inp i a b

/-- Lines 130-165 of `cost_function`, downstream of the inner-mask derivation:
reshape the flat bed, run the forward model, derive the model masks (the model
inner mask as lines 139-141 evidently intend, i.e. `inner_mask_vals`; the
`unsqeeze` spelling slip that makes the actual call raise first is modelled in
`cost_function` below), compute the breakdown, sum it, differentiate, format
for scipy, and append to the data logger.  `run_forward` embeds the external
`run_forward_core`, `autodiff` the library-computed term differentials. -/
def cost_function_core (MB : Type)
    (run_forward : ℚ → Grid → ℚ → MB → Grid → Grid)
    (autodiff : TermDiffInput → ℕ → Grid)
    (r c : ℕ) (b : List ℚ) (lambdas : ℕ → ℚ)
    (ref_surf ref_ice_mask ref_inner_mask spinup_surf : Grid)
    (yrs_to_run dx : ℚ) (mb : MB) (data_logger : Option DataLogger) :
    NpScalar × NpVec × Option DataLogger :=
  let guessed_bed := reshape_to_grid b c
  let init_ice_thick := gsub spinup_surf guessed_bed
  let model_surf := run_forward yrs_to_run guessed_bed dx mb init_ice_thick
  let model_ice_mask : Grid := fun i j => if 0 < model_surf i j - guessed_bed i j then 1 else 0
  let model_inner_mask := inner_mask_vals r c model_ice_mask
  let c_terms := get_costs r c lambdas ref_surf ref_ice_mask ref_inner_mask guessed_bed
    model_surf model_ice_mask model_inner_mask dx
  let csum := ∑ k ∈ Finset.range 10, c_terms k
  let g := bed_grad autodiff lambdas
    ⟨guessed_bed, model_surf, model_inner_mask, ref_surf, ref_ice_mask, dx⟩
  let grad : NpVec := ⟨Dtype.float64, flatten_grid r c g⟩
  let cost : NpScalar := ⟨Dtype.float64, csum⟩
  let logger' :=
    match data_logger with
    | none => none
    | some L => some (DataLogger.mk
        (L.c_terms ++ [⟨Dtype.float32, NpVal.scalar csum⟩])
        (L.costs ++ [⟨Dtype.float64, NpVal.scalar csum⟩])
        (L.grads ++ [⟨Dtype.float64, NpVal.arr1 grad.data⟩])
        (L.beds ++ [⟨Dtype.float32, NpVal.arr2 (grid_to_list r c guessed_bed)⟩])
        (L.surfs ++ [⟨Dtype.float32, NpVal.arr2 (grid_to_list r c model_surf)⟩]))
  (cost, grad, logger')

/-- Lines 93-165, as executed: the model inner-mask derivation at lines
139-141 spells the first method `unsqeeze`, so every call raises
AttributeError there (after the forward run, before any cost term). -/
def cost_function (MB : Type)
    (run_forward : ℚ → Grid → ℚ → MB → Grid → Grid)
    (autodiff : TermDiffInput → ℕ → Grid)
    (r c : ℕ) (b : List ℚ) (lambdas : ℕ → ℚ)
    (ref_surf ref_ice_mask ref_inner_mask spinup_surf : Grid)
    (yrs_to_run dx : ℚ) (mb : MB) (data_logger : Option DataLogger) :
    Except PyError (NpScalar × NpVec × Option DataLogger) :=
  let guessed_bed := reshape_to_grid b c
  let init_ice_thick := gsub spinup_surf guessed_bed
  let model_surf := run_forward yrs_to_run guessed_bed dx mb init_ice_thick
  let model_ice_mask : Grid := fun i j => if 0 < model_surf i j - guessed_bed i j then 1 else 0
  match derive_inner_mask r c model_ice_mask with
  | Except.error e => Except.error e
  | Except.ok _ => Except.ok (cost_function_core MB run_forward autodiff r c b lambdas
      ref_surf ref_ice_mask ref_inner_mask spinup_surf yrs_to_run dx mb data_logger)

/-- Lines 26-90, `create_cost_func`: the file loading through `gdir` is
abstracted into the loaded fields (`spinup_surf`, `ref_surf`, `ref_ice_mask`);
the reference inner mask is then derived at lines 66-68, where the first
chained method is spelled `unsqeeze`, so construction raises AttributeError
before the closure `c_fun` is ever formed. -/
def create_cost_func (MB : Type)
    (run_forward : ℚ → Grid → ℚ → MB → Grid → Grid)
    (autodiff : TermDiffInput → ℕ → Grid)
    (r c : ℕ) (spinup_surf ref_surf ref_ice_mask : Grid)
    (lambdas : ℕ → ℚ) (yrs_to_run dx : ℚ) (mb : MB) (data_logger : Option DataLogger) :
    Except PyError (List ℚ → Except PyError (NpScalar × NpVec × Option DataLogger)) :=
  match derive_inner_mask r c ref_ice_mask with
  | Except.error e => Except.error e
  | Except.ok ref_inner_mask => Except.ok (fun b =>
      cost_function MB run_forward autodiff r c b lambdas ref_surf ref_ice_mask
        ref_inner_mask spinup_surf yrs_to_run dx mb data_logger)

/-- The mutable state an optimization run carries across evaluations: the
lambda vector, the precomputed read-only reference fields, the forward-run
parameters, and the optional data logger. -/
structure RunState (MB : Type) where
  lambdas : ℕ → ℚ
  ref_surf : Grid
  ref_ice_mask : Grid
  ref_inner_mask : Grid
  spinup_surf : Grid
  yrs_to_run : ℚ
  dx : ℚ
  mb : MB
  data_logger : Option DataLogger

/-- One optimizer-facing evaluation over explicit run state: the evaluation
reads the reference fields, computes `(cost, grad)` via `cost_function_core`,
and the only state component it writes is the data logger. -/
def evaluate (MB : Type)
    (run_forward : ℚ → Grid → ℚ → MB → Grid → Grid)
    (autodiff : TermDiffInput → ℕ → Grid)
    (r c : ℕ) (s : RunState MB) (b : List ℚ) :
    NpScalar × NpVec × RunState MB :=
  let res := cost_function_core MB run_forward autodiff r c b s.lambdas s.ref_surf
    s.ref_ice_mask s.ref_inner_mask s.spinup_surf s.yrs_to_run s.dx s.mb s.data_logger
  (res.1, res.2.1,
    ⟨s.lambdas, s.ref_surf, s.ref_ice_mask, s.ref_inner_mask, s.spinup_surf,
      s.yrs_to_run, s.dx, s.mb, res.2.2⟩)

/-- The all-zero grid (concrete test input). -/
def zgrid : Grid := fun _ _ => 0

/-- A constant grid (concrete test input). -/
def const_grid (q : ℚ) : Grid := fun _ _ => q

/-- A grid that is 1 at the origin and 0 elsewhere (concrete test input). -/
def cex_bed : Grid := fun i j => if i = 0 ∧ j = 0 then 1 else 0

/-- A concrete saved-tensor bundle for the custom autograd function. -/
def lmsd_example : LMSDSaved :=
  ⟨const_grid 2, const_grid 1, const_grid 1, const_grid 1, const_grid 5⟩

/-- A data logger with all five sequences empty. -/
def demo_logger : DataLogger := ⟨[], [], [], [], []⟩

/-- A concrete stand-in forward simulator returning the constant surface 10. -/
def demo_forward : ℚ → Grid → ℚ → Unit → Grid → Grid := fun _ _ _ _ _ => const_grid 10

/-- A concrete autodiff oracle whose differentials all vanish. -/
def demo_autodiff : TermDiffInput → ℕ → Grid := fun _ _ => zgrid

/-- A concrete `TermDiffInput` bundle. -/
def demo_inp : TermDiffInput :=
  ⟨zgrid, const_grid 10, zgrid, const_grid 12, const_grid 1, 1⟩

/-- C1: for every input, constructing the cost function reaches the reference
inner-mask derivation (lines 66-68), whose first chained call is the
nonexistent tensor method `unsqeeze`, so `create_cost_func` raises
AttributeError before any cost term is computed; and a direct call of
`cost_function` likewise raises at lines 139-141, so no call ever returns a
(cost, gradient) pair: both results are the error value, never `Except.ok`. -/
theorem create_cost_func_raises_attribute_error (MB : Type)
    (run_forward : ℚ → Grid → ℚ → MB → Grid → Grid)
    (autodiff : TermDiffInput → ℕ → Grid)
    (r c : ℕ) (spinup_surf ref_surf ref_ice_mask ref_inner_mask : Grid)
    (lambdas : ℕ → ℚ) (b : List ℚ) (yrs_to_run dx : ℚ) (mb : MB)
    (data_logger : Option DataLogger) :
    create_cost_func MB run_forward autodiff r c spinup_surf ref_surf ref_ice_mask
        lambdas yrs_to_run dx mb data_logger
      = Except.error (PyError.attributeError "unsqeeze")
    ∧ cost_function MB run_forward autodiff r c b lambdas ref_surf ref_ice_mask
        ref_inner_mask spinup_surf yrs_to_run dx mb data_logger
      = Except.error (PyError.attributeError "unsqeeze") :=
  ⟨rfl, rfl⟩

/-- C2, code evaluation at the failing input: at the concrete saved tensors
with `modelled_surf ≡ 2`, `surface_to_match ≡ 1`, `ice_region = ice_mask ≡ 1`,
`bed ≡ 5` and `grad_output = 1`, the hand-written backward returns `None` in
the gradient slot of its first input `modelled_surf` (and in slots 2-4), while
the nonzero gradient `(modelled_surf - observed_surf) * ice_mask = 1` sits in
the fifth slot, which torch delivers to the fifth input `bed` - not to
`modelled_surf` as the claim (and the variable name `grad_modelled_surf`)
require. -/
theorem lmsd_backward_misroutes_gradient :
    (LocalMeanSquaredDifference.backward lmsd_example 1).1 = none
    ∧ (LocalMeanSquaredDifference.backward lmsd_example 1).2.1 = none
    ∧ (LocalMeanSquaredDifference.backward lmsd_example 1).2.2.1 = none
    ∧ (LocalMeanSquaredDifference.backward lmsd_example 1).2.2.2.1 = none
    ∧ Option.map (fun G => G 0 0) (LocalMeanSquaredDifference.backward lmsd_example 1).2.2.2.2
      = some 1 := by
  refine ⟨rfl, rfl, rfl, rfl, ?_⟩
  show some ((lmsd_example.modelled_surf 0 0 - lmsd_example.surface_to_match 0 0)
    * lmsd_example.ice_mask 0 0) = some 1
  norm_num [lmsd_example, const_grid]

/-- C3, counterexample: for the bed-gradient term (index 1) the code's masked
first derivative along the column axis is not the spec's central-difference
operator `(F[-shift] - F[+shift]) / (2 * dx)` masked by the interior slice: at
the bed that is 1 at the origin and 0 elsewhere, with an all-ones mask and
`dx = 1`, the code (line 208, division by `dx`) yields 1 while the spec
operator yields 1/2. -/
theorem bed_gradient_central_diff_cex :
    ¬ masked_db_dx cex_bed (const_grid 1) 1 0 0
      = spec_first_deriv_x cex_bed (const_grid 1) 1 0 0 := by
  norm_num [masked_db_dx, db_dx, spec_first_deriv_x, cex_bed, const_grid]

/-- C3, amended: for the ice-thickness-gradient term (index 0) the masked
first derivative along each axis equals the spec's central-difference operator
`(F[-shift] - F[+shift]) / (2 * dx)` times the inner mask's matching interior
slice; for the bed-gradient term (index 1) the code divides by `dx` instead of
`2 * dx`, so its masked derivative equals twice the spec operator. -/
theorem masked_first_derivative_formulas (F M : Grid) (dx : ℚ) (i j : ℕ) :
    masked_dit_dx F M dx i j = spec_first_deriv_x F M dx i j
    ∧ masked_dit_dy F M dx i j = spec_first_deriv_y F M dx i j
    ∧ masked_db_dx F M dx i j = 2 * spec_first_deriv_x F M dx i j
    ∧ masked_db_dy F M dx i j = 2 * spec_first_deriv_y F M dx i j := by
  refine ⟨rfl, rfl, ?_, ?_⟩
  · simp only [masked_db_dx, db_dx, spec_first_deriv_x]
    rcases eq_or_ne dx 0 with h | h
    · simp [h]
    · field_simp
      ring
  · simp only [masked_db_dy, db_dy, spec_first_deriv_y]
    rcases eq_or_ne dx 0 with h | h
    · simp [h]
    · field_simp
      ring

/-- C4, code evaluation at the failing input: one evaluation on a 2×2 grid
with bed vector [1, 2, 3, 4], all lambdas 0, constant reference surface 12,
all-ones reference ice mask, spinup surface 10, a forward model returning the
constant surface 10, and an empty attached data logger.  Each of the five
logger sequences receives exactly one append, but the item appended to
`c_terms` is the float32 0-d scalar `c = 4` (the summed total cost, line 159:
`data_logger.c_terms.append(c.detach().numpy())`), not the 10-slot cost
breakdown vector the claim describes. -/
theorem logger_appends_scalar_not_breakdown :
    Option.map (fun L => (L.c_terms.length, L.costs.length, L.grads.length,
          L.beds.length, L.surfs.length))
        (cost_function_core Unit demo_forward demo_autodiff 2 2 [1, 2, 3, 4] (fun _ => 0)
          (const_grid 12) (const_grid 1) zgrid (const_grid 10) 1 1 () (some demo_logger)).2.2
      = some (1, 1, 1, 1, 1)
    ∧ Option.map DataLogger.c_terms
        (cost_function_core Unit demo_forward demo_autodiff 2 2 [1, 2, 3, 4] (fun _ => 0)
          (const_grid 12) (const_grid 1) zgrid (const_grid 10) 1 1 () (some demo_logger)).2.2
      = some [⟨Dtype.float32, NpVal.scalar 4⟩]
    ∧ (cost_function_core Unit demo_forward demo_autodiff 2 2 [1, 2, 3, 4] (fun _ => 0)
        (const_grid 12) (const_grid 1) zgrid (const_grid 10) 1 1 () (some demo_logger)).1.val
      = 4 := by
  have hsum : (∑ k ∈ Finset.range 10,
      get_costs 2 2 (fun _ => 0) (const_grid 12) (const_grid 1) zgrid
        (reshape_to_grid [1, 2, 3, 4] 2)
        (demo_forward 1 (reshape_to_grid [1, 2, 3, 4] 2) 1 ()
          (gsub (const_grid 10) (reshape_to_grid [1, 2, 3, 4] 2)))
        (fun i j =>
          if 0 < demo_forward 1 (reshape_to_grid [1, 2, 3, 4] 2) 1 ()
                (gsub (const_grid 10) (reshape_to_grid [1, 2, 3, 4] 2)) i j
              - reshape_to_grid [1, 2, 3, 4] 2 i j then 1 else 0)
        (inner_mask_vals 2 2 (fun i j =>
          if 0 < demo_forward 1 (reshape_to_grid [1, 2, 3, 4] 2) 1 ()
                (gsub (const_grid 10) (reshape_to_grid [1, 2, 3, 4] 2)) i j
              - reshape_to_grid [1, 2, 3, 4] 2 i j then 1 else 0)) 1 k) = 4 := by
    simp only [Finset.sum_range_succ, Finset.sum_range_zero, get_costs, demo_forward,
      const_grid, gsum]
    norm_num
  refine ⟨?_, ?_, ?_⟩
  · simp [cost_function_core, demo_logger]
  · simp only [cost_function_core, demo_logger]
    rw [hsum]
    simp
  · simp only [cost_function_core]
    rw [hsum]

/-- C5: if `lambdas i = 0` for a switchable slot `i < 9` then that slot of the
cost breakdown is 0 for every input whatsoever (the guard at the source level
skips the term's body, so in particular an empty masked region for that term
is never divided by), while every other slot `j` of the breakdown and every
other slot's gradient contribution are unchanged between a lambda vector and
its variant that zeroes entry `i`. -/
theorem zero_lambda_skips_term
    (r c : ℕ) (lambdas lambdas' : ℕ → ℚ)
    (ref_surf ref_ice_mask ref_inner_mask guessed_bed model_surf model_ice_mask
      model_inner_mask : Grid) (dx : ℚ)
    (autodiff : TermDiffInput → ℕ → Grid) (inp : TermDiffInput)
    (i j a b : ℕ) (hi : i < 9) (hj : j ≠ i) (hj10 : j < 10)
    (hz : lambdas' i = 0) (hoth : ∀ k, k ≠ i → lambdas' k = lambdas k) :
    get_costs r c lambdas' ref_surf ref_ice_mask ref_inner_mask guessed_bed model_surf
        model_ice_mask model_inner_mask dx i = 0
    ∧ get_costs r c lambdas' ref_surf ref_ice_mask ref_inner_mask guessed_bed model_surf
        model_ice_mask model_inner_mask dx j
      = get_costs r c lambdas ref_surf ref_ice_mask ref_inner_mask guessed_bed model_surf
        model_ice_mask model_inner_mask dx j
    ∧ termGrad autodiff lambdas' inp j a b = termGrad autodiff lambdas inp j a b := by
  refine ⟨?_, ?_, ?_⟩
  · interval_cases i <;> simp [get_costs, hz]
  · have hjj := hoth j hj
    interval_cases j <;> simp [get_costs, hjj]
  · have hjj := hoth j hj
    interval_cases j <;> simp [termGrad, hjj]

/-- C5 witness: with the 3×3 all-ones setup, zeroing lambda 3 makes slot 3 of
the breakdown 0 while slot 5's value and gradient contribution agree with the
all-ones lambda vector. -/
theorem zero_lambda_skips_term_witness :
    ((fun k : ℕ => if k = 3 then (0 : ℚ) else 1) 3 = 0)
    ∧ (get_costs 3 3 (fun k => if k = 3 then 0 else 1) (const_grid 12) (const_grid 1) zgrid
          zgrid (const_grid 10) (const_grid 1) (const_grid 1) 1 3 = 0
      ∧ get_costs 3 3 (fun k => if k = 3 then 0 else 1) (const_grid 12) (const_grid 1) zgrid
          zgrid (const_grid 10) (const_grid 1) (const_grid 1) 1 5
        = get_costs 3 3 (fun _ => 1) (const_grid 12) (const_grid 1) zgrid
          zgrid (const_grid 10) (const_grid 1) (const_grid 1) 1 5
      ∧ termGrad demo_autodiff (fun k => if k = 3 then 0 else 1) demo_inp 5 0 0
        = termGrad demo_autodiff (fun _ => 1) demo_inp 5 0 0) :=
  ⟨by norm_num, zero_lambda_skips_term 3 3 (fun _ => 1) (fun k => if k = 3 then 0 else 1)
    (const_grid 12) (const_grid 1) zgrid zgrid (const_grid 10) (const_grid 1) (const_grid 1) 1
    demo_autodiff demo_inp 3 5 0 0 (by norm_num) (by norm_num) (by norm_num) (by norm_num)
    (fun k hk => by simp [hk])⟩

/-- C6: for every lambda vector (the statement quantifies over all of them,
including the all-zero vector), the last slot of the cost breakdown is
`sum((ref_surf - model_surf)^2) / sum(ref_ice_mask)`; the right-hand side does
not mention the lambda vector, so the data-misfit term is computed
unconditionally. -/
theorem misfit_term_unconditional (r c : ℕ) (lambdas : ℕ → ℚ)
    (ref_surf ref_ice_mask ref_inner_mask guessed_bed model_surf model_ice_mask
      model_inner_mask : Grid) (dx : ℚ) :
    get_costs r c lambdas ref_surf ref_ice_mask ref_inner_mask guessed_bed model_surf
        model_ice_mask model_inner_mask dx 9
      = gsum r c (fun i j => (ref_surf i j - model_surf i j) ^ 2) / gsum r c ref_ice_mask :=
  rfl

/-- C7: when enabled, the ice-thickness-curvature slot (index 4) and the
bed-curvature slot (index 5) apply the same masked curvature sum-of-squares
`curv_sq_sum`, but slot 4 is normalized by the inner-mask cell count while
slot 5 is normalized by 2 times that count. -/
theorem curvature_normalization_asymmetry (r c : ℕ) (lambdas : ℕ → ℚ)
    (ref_surf ref_ice_mask ref_inner_mask guessed_bed model_surf model_ice_mask
      model_inner_mask : Grid) (dx : ℚ)
    (h4 : lambdas 4 ≠ 0) (h5 : lambdas 5 ≠ 0) :
    get_costs r c lambdas ref_surf ref_ice_mask ref_inner_mask guessed_bed model_surf
        model_ice_mask model_inner_mask dx 4
      = lambdas 4 * (curv_sq_sum r c (gsub model_surf guessed_bed) model_inner_mask dx
          / gsum r c model_inner_mask)
    ∧ get_costs r c lambdas ref_surf ref_ice_mask ref_inner_mask guessed_bed model_surf
        model_ice_mask model_inner_mask dx 5
      = lambdas 5 * (curv_sq_sum r c guessed_bed model_inner_mask dx
          / (2 * gsum r c model_inner_mask)) := by
  constructor <;> simp [get_costs, h4, h5]

/-- C7 witness: the normalization asymmetry instantiated on a concrete 3×3
configuration with all-ones lambdas. -/
theorem curvature_normalization_asymmetry_witness :
    ((1 : ℚ) ≠ 0)
    ∧ (get_costs 3 3 (fun _ => 1) (const_grid 12) (const_grid 1) zgrid zgrid (const_grid 10)
          (const_grid 1) (const_grid 1) 1 4
        = 1 * (curv_sq_sum 3 3 (gsub (const_grid 10) zgrid) (const_grid 1) 1
            / gsum 3 3 (const_grid 1))
      ∧ get_costs 3 3 (fun _ => 1) (const_grid 12) (const_grid 1) zgrid zgrid (const_grid 10)
          (const_grid 1) (const_grid 1) 1 5
        = 1 * (curv_sq_sum 3 3 zgrid (const_grid 1) 1 / (2 * gsum 3 3 (const_grid 1)))) :=
  ⟨by norm_num, curvature_normalization_asymmetry 3 3 (fun _ => 1) (const_grid 12)
    (const_grid 1) zgrid zgrid (const_grid 10) (const_grid 1) (const_grid 1) 1
    (by norm_num) (by norm_num)⟩

/-- C8: whenever the flat bed vector has the grid's size (the precondition
numpy's `reshape` itself enforces at line 130/154), the evaluation's returned
scalar cost carries dtype float64 and the returned gradient is a float64
vector of exactly the input vector's length. -/
theorem evaluate_output_format (MB : Type)
    (run_forward : ℚ → Grid → ℚ → MB → Grid → Grid)
    (autodiff : TermDiffInput → ℕ → Grid)
    (r c : ℕ) (b : List ℚ) (lambdas : ℕ → ℚ)
    (ref_surf ref_ice_mask ref_inner_mask spinup_surf : Grid)
    (yrs_to_run dx : ℚ) (mb : MB) (data_logger : Option DataLogger)
    (h : b.length = r * c) :
    (cost_function_core MB run_forward autodiff r c b lambdas ref_surf ref_ice_mask
        ref_inner_mask spinup_surf yrs_to_run dx mb data_logger).1.dtype = Dtype.float64
    ∧ (cost_function_core MB run_forward autodiff r c b lambdas ref_surf ref_ice_mask
        ref_inner_mask spinup_surf yrs_to_run dx mb data_logger).2.1.dtype = Dtype.float64
    ∧ (cost_function_core MB run_forward autodiff r c b lambdas ref_surf ref_ice_mask
        ref_inner_mask spinup_surf yrs_to_run dx mb data_logger).2.1.data.length
      = b.length := by
  refine ⟨rfl, rfl, ?_⟩
  simp [cost_function_core, flatten_grid, h]

/-- C8 witness: the output format instantiated at a concrete 2×2 evaluation
with the length-4 bed vector [1, 2, 3, 4]. -/
theorem evaluate_output_format_witness :
    (([1, 2, 3, 4] : List ℚ).length = 2 * 2)
    ∧ ((cost_function_core Unit demo_forward demo_autodiff 2 2 [1, 2, 3, 4] (fun _ => 0)
          (const_grid 12) (const_grid 1) zgrid (const_grid 10) 1 1 () none).1.dtype
        = Dtype.float64
      ∧ (cost_function_core Unit demo_forward demo_autodiff 2 2 [1, 2, 3, 4] (fun _ => 0)
          (const_grid 12) (const_grid 1) zgrid (const_grid 10) 1 1 () none).2.1.dtype
        = Dtype.float64
      ∧ (cost_function_core Unit demo_forward demo_autodiff 2 2 [1, 2, 3, 4] (fun _ => 0)
          (const_grid 12) (const_grid 1) zgrid (const_grid 10) 1 1 () none).2.1.data.length
        = ([1, 2, 3, 4] : List ℚ).length) :=
  ⟨rfl, evaluate_output_format Unit demo_forward demo_autodiff 2 2 [1, 2, 3, 4] (fun _ => 0)
    (const_grid 12) (const_grid 1) zgrid (const_grid 10) 1 1 () none rfl⟩

/-- C9: with the forward simulator and the autodiff differentials embedded as
(deterministic) functions, evaluating twice with the same flat bed vector -
the second call running on the state the first call returned - yields
identical scalar cost and identical gradient, and the evaluation leaves the
lambda vector, the reference surfaces and the reference masks of the run
state unchanged (only the data-logger component is written). -/
theorem evaluate_idempotent_pure (MB : Type)
    (run_forward : ℚ → Grid → ℚ → MB → Grid → Grid)
    (autodiff : TermDiffInput → ℕ → Grid)
    (r c : ℕ) (s : RunState MB) (b : List ℚ) :
    (evaluate MB run_forward autodiff r c
        ((evaluate MB run_forward autodiff r c s b).2.2) b).1
      = (evaluate MB run_forward autodiff r c s b).1
    ∧ (evaluate MB run_forward autodiff r c
        ((evaluate MB run_forward autodiff r c s b).2.2) b).2.1
      = (evaluate MB run_forward autodiff r c s b).2.1
    ∧ (evaluate MB run_forward autodiff r c s b).2.2.lambdas = s.lambdas
    ∧ (evaluate MB run_forward autodiff r c s b).2.2.ref_surf = s.ref_surf
    ∧ (evaluate MB run_forward autodiff r c s b).2.2.ref_ice_mask = s.ref_ice_mask
    ∧ (evaluate MB run_forward autodiff r c s b).2.2.ref_inner_mask = s.ref_inner_mask
    ∧ (evaluate MB run_forward autodiff r c s b).2.2.spinup_surf = s.spinup_surf
    ∧ (evaluate MB run_forward autodiff r c s b).2.2.yrs_to_run = s.yrs_to_run
    ∧ (evaluate MB run_forward autodiff r c s b).2.2.dx = s.dx :=
  ⟨rfl, rfl, rfl, rfl, rfl, rfl, rfl, rfl, rfl⟩

/-- C10: the hand-written backward rule returns the same 5-tuple
`(None, None, None, None, (modelled_surf - observed_surf) * ice_mask)` for
every `grad_output`, so the gradient the term injects is not scaled by
`grad_output`; at the call site `cost[8] = lambdas[8] * lmsd(...)` the product
node hands `grad_output = lambdas 8` to the backward, hence the injected
gradient contribution is the same for any two nonzero values of `lambdas 8`
and equals `(model_surf - ref_surf) * ref_ice_mask` unscaled. -/
theorem lmsd_backward_ignores_grad_output
    (s : LMSDSaved) (g g' : ℚ)
    (autodiff : TermDiffInput → ℕ → Grid) (lambdas lambdas' : ℕ → ℚ)
    (inp : TermDiffInput) (a b : ℕ)
    (h8 : lambdas 8 ≠ 0) (h8' : lambdas' 8 ≠ 0) :
    LocalMeanSquaredDifference.backward s g
      = (none, none, none, none,
          some (fun i j => (s.modelled_surf i j - s.surface_to_match i j) * s.ice_mask i j))
    ∧ LocalMeanSquaredDifference.backward s g = LocalMeanSquaredDifference.backward s g'
    ∧ termGrad autodiff lambdas inp 8 a b = termGrad autodiff lambdas' inp 8 a b
    ∧ termGrad autodiff lambdas inp 8 a b
      = (inp.model_surf a b - inp.ref_surf a b) * inp.ref_ice_mask a b := by
  refine ⟨rfl, rfl, ?_, ?_⟩
  · simp [termGrad, h8, h8', LocalMeanSquaredDifference.backward]
  · simp [termGrad, h8, LocalMeanSquaredDifference.backward]

/-- C10 witness: the backward rule's output and the slot-8 gradient
contribution instantiated at concrete tensors, with grad_output 1 against 7
and the all-ones against the all-twos lambda vector. -/
theorem lmsd_backward_ignores_grad_output_witness :
    ((1 : ℚ) ≠ 0)
    ∧ (LocalMeanSquaredDifference.backward lmsd_example 1
        = (none, none, none, none,
            some (fun i j => (lmsd_example.modelled_surf i j
              - lmsd_example.surface_to_match i j) * lmsd_example.ice_mask i j))
      ∧ LocalMeanSquaredDifference.backward lmsd_example 1
        = LocalMeanSquaredDifference.backward lmsd_example 7
      ∧ termGrad demo_autodiff (fun _ => 1) demo_inp 8 0 0
        = termGrad demo_autodiff (fun _ => 2) demo_inp 8 0 0
      ∧ termGrad demo_autodiff (fun _ => 1) demo_inp 8 0 0
        = (demo_inp.model_surf 0 0 - demo_inp.ref_surf 0 0) * demo_inp.ref_ice_mask 0 0) :=
  ⟨by norm_num, lmsd_backward_ignores_grad_output lmsd_example 1 7 demo_autodiff
    (fun _ => 1) (fun _ => 2) demo_inp 0 0 (by norm_num) (by norm_num)⟩
